import Mathlib

/-!
# Registry construction in `pkg/content/registry.go`

A shallow embedding of `NewRegistry`, `NewRegistryWithDiscover1`,
`NewRegistryWithDiscover` and `newResolver`.

* The process-wide `http.DefaultClient` is explicit state (`World.DefaultClient`);
  `client := http.DefaultClient` copies the pointer, so the model keeps a pointer
  (`ClientPtr.DefaultClient`) and reads the client through the world.
* `os.Stderr` is the list `World.stderr` of the strings written, in order.
* Every call that leaves the file is logged in `World.calls`, in order.
* A Go multi-value return `(T, error)` is a pair `Option T × Option GoError`,
  `none` standing for `nil` on either side.
* A method call on a nil interface value is a run-time panic (`Run.panic`).
* The functions imported from other packages are the fields of `Collaborators`.
-/

namespace Content

/-- Go `error` value; `%v` prints the text of `Error()`. -/
structure GoError where
  Error : String
deriving DecidableEq, Repr

/-- The `tls.Config` literal of `newResolver`: the one field it sets. -/
structure TLSConfig where
  InsecureSkipVerify : Bool
deriving DecidableEq, Repr

/-- The `http.Transport` literal of `newResolver`; a nil `TLSClientConfig` is the default
configuration, which verifies certificates. -/
structure HTTPTransport where
  TLSClientConfig : Option TLSConfig
deriving DecidableEq, Repr

/-- The `http.Client` struct: its `Transport` field; nil means `http.DefaultTransport`, which
verifies certificates. -/
structure HTTPClient where
  Transport : Option HTTPTransport
deriving DecidableEq, Repr

/-- Whether requests through the client skip TLS certificate verification. -/
def HTTPClient.tlsVerifyDisabled (c : HTTPClient) : Bool :=
  match c.Transport with
  | none => false
  | some t =>
    match t.TLSClientConfig with
    | none => false
    | some cfg => cfg.InsecureSkipVerify

/-- A `*http.Client`. The only client the file handles is the shared `http.DefaultClient`. -/
inductive ClientPtr where
  | DefaultClient
deriving DecidableEq, Repr

/-- The function literal assigned to `opts.Credentials` (lines 126-128), as the closure over
the two variables it captures. -/
inductive CredentialsFunc where
  | closure (username password : String)
deriving DecidableEq, Repr

/-- Calling the credentials closure: `return username, password, nil`. -/
def CredentialsFunc.call : CredentialsFunc → String → String × String × Option GoError
  | .closure username password, _hostName => (username, password, none)

/-- The fields of `docker.ResolverOptions` that `newResolver` sets; the others keep their zero
value. -/
structure ResolverOptions where
  PlainHTTP : Bool
  Client : Option ClientPtr
  Credentials : Option CredentialsFunc
deriving DecidableEq, Repr

/-- RegistryOptions provide configuration options to a Registry. -/
structure RegistryOptions where
  Configs : List String
  Username : String
  Password : String
  Insecure : Bool
  PlainHTTP : Bool
  UserAgent : String
deriving DecidableEq, Repr

/-- Registry embeds a `remotes.Resolver` interface value (`none` is nil). -/
structure Registry (Res : Type) where
  Resolver : Option Res
deriving DecidableEq, Repr

/-- The login options built in `NewRegistryWithDiscover1`. -/
inductive LoginOption where
  | WithLoginHostname (host : String)
  | WithLoginUsername (username : String)
  | WithLoginSecret (secret : String)
  | WithLoginUserAgent (userAgent : String)
  | WithLoginInsecure
deriving DecidableEq, Repr

/-- One call out of the file, with the arguments that are plain data. -/
inductive Call where
  | ReferenceSpec (targetRef : String)
  | NewRegistryWithAccessProvider (host ns : String) (configs : List String)
      (loginOpts : List LoginOption)
  | NewClient (configs : List String)
  | Resolver (client : ClientPtr) (plainHTTP : Bool)
  | NewResolver (opts : ResolverOptions)
  | WithDiscover (targetRef : String)
  | FromRemotesRegistry (targetRef : String)
deriving DecidableEq, Repr

/-- The `*http.Client` a logged call was handed, if any. -/
def Call.client : Call → Option ClientPtr
  | .Resolver client _ => some client
  | .NewResolver opts => opts.Client
  | _ => none

/-- Whether the logged call is `auth.NewClient`. -/
def Call.isNewClient : Call → Bool
  | .NewClient _ => true
  | _ => false

/-- Process state the file reads and writes. -/
structure World where
  DefaultClient : HTTPClient
  stderr : List String
  calls : List Call
deriving DecidableEq, Repr

/-- The process at start: `http.DefaultClient` is `&Client{}`. -/
def World.init : World :=
  { DefaultClient := { Transport := none }, stderr := [], calls := [] }

/-- Reading a client through its pointer. -/
def World.deref (w : World) : ClientPtr → HTTPClient
  | .DefaultClient => w.DefaultClient

/-- Writing `s` to `os.Stderr`. -/
def World.warn (w : World) (s : String) : World :=
  { w with stderr := w.stderr ++ [s] }

/-- Logging a call out of the file. -/
def World.call (w : World) (c : Call) : World :=
  { w with calls := w.calls ++ [c] }

/-- Outcome of running a function: it returns `v`, or it panics; either way in world `w`. -/
inductive Run (α : Type) where
  | ret (v : α) (w : World)
  | panic (w : World)
deriving DecidableEq, Repr

/-- The world in which the run ended. -/
def Run.world {α : Type} : Run α → World
  | .ret _ w => w
  | .panic w => w

/-- The functions of other packages that the file calls. `Cli` is `auth.Client`, `Res` is
`remotes.Resolver`, `LoginCli` is the client of `auth.NewRegistryWithAccessProvider`, `Tgt` is
`target.Target`.
* `ReferenceSpec targetRef` is `target.FromOCIDescriptor(targetRef, ...).ReferenceSpec()`;
* `Resolver cli client plainHTTP` is `cli.Resolver(context.Background(), client, plainHTTP)`
  on a non-nil `cli`;
* `NewResolver` is containerd's `docker.NewResolver`, which returns a non-nil resolver. -/
structure Collaborators (Cli Res LoginCli Tgt : Type) where
  ReferenceSpec : String → String × String × String × String × Option GoError
  NewRegistryWithAccessProvider :
    String → String → List String → List LoginOption → Option LoginCli × Option GoError
  NewClient : List String → Option Cli × Option GoError
  Resolver : Cli → ClientPtr → Bool → Option Res × Option GoError
  NewResolver : ResolverOptions → Res
  WithDiscover : String → Option Res → Option Res × Option GoError
  FromRemotesRegistry :
    String → Option LoginCli → Option (Registry Res) → Option Tgt × Option GoError

variable {Cli Res LoginCli Tgt : Type}

/-- Lines 116-122: with `insecure` set, the `Transport` field of the client behind
`http.DefaultClient` is assigned a fresh transport that skips verification. -/
def World.setTransport (insecure : Bool) (w : World) : World :=
  if insecure then
    { w with DefaultClient :=
        { Transport := some { TLSClientConfig := some { InsecureSkipVerify := true } } } }
  else w

/-- Lines 132-134: the warning written when `auth.NewClient` returned an error. -/
def World.warnAuth (err : Option GoError) (w : World) : World :=
  match err with
  | some e => w.warn ("WARNING: Error loading auth file: " ++ e.Error ++ "\n")
  | none => w

/-- Lines 109-141. -/
def newResolver (env : Collaborators Cli Res LoginCli Tgt) (username password : String)
    (insecure : Bool) (plainHTTP : Bool) (configs : List String) (w : World) :
    Run (Option Res) :=
  let opts : ResolverOptions := { PlainHTTP := plainHTTP, Client := none, Credentials := none }
  let client := ClientPtr.DefaultClient
  let w := w.setTransport insecure
  let opts := { opts with Client := some client }
  if username ≠ "" ∨ password ≠ "" then
    let opts := { opts with Credentials := some (.closure username password) }
    .ret (some (env.NewResolver opts)) (w.call (.NewResolver opts))
  else
    match env.NewClient configs with
    | (cli, err) =>
      let w := (w.call (.NewClient configs)).warnAuth err
      match cli with
      | none => .panic w
      | some c =>
        match env.Resolver c client plainHTTP with
        | (resolver, err) =>
          let w := w.call (.Resolver client plainHTTP)
          match err with
          | some e =>
            let w := w.warn ("WARNING: Error loading resolver: " ++ e.Error ++ "\n")
            .ret (some (env.NewResolver opts)) (w.call (.NewResolver opts))
          | none => .ret resolver w

/-- NewRegistry creates a new Registry store (lines 50-54). -/
def NewRegistry (env : Collaborators Cli Res LoginCli Tgt) (opts : RegistryOptions)
    (w : World) : Run (Option (Registry Res) × Option GoError) :=
  match newResolver env opts.Username opts.Password opts.Insecure opts.PlainHTTP opts.Configs w
  with
  | .panic w => .panic w
  | .ret resolver w => .ret (some { Resolver := resolver }, none) w

/-- The login options of lines 64-73. -/
def loginOpts (host : String) (opts : RegistryOptions) : List LoginOption :=
  let loginOpts : List LoginOption :=
    [ .WithLoginHostname host,
      .WithLoginUsername opts.Username,
      .WithLoginSecret opts.Password,
      .WithLoginUserAgent opts.UserAgent ]
  if opts.Insecure then loginOpts ++ [.WithLoginInsecure] else loginOpts

/-- Lines 56-92. -/
def NewRegistryWithDiscover1 (env : Collaborators Cli Res LoginCli Tgt) (targetRef : String)
    (opts : RegistryOptions) (w : World) : Run (Option Tgt × Option GoError) :=
  match env.ReferenceSpec targetRef with
  | (_, host, ns, _, err) =>
    let w := w.call (.ReferenceSpec targetRef)
    match err with
    | some e => .ret (none, some e) w
    | none =>
      match env.NewRegistryWithAccessProvider host ns opts.Configs (loginOpts host opts) with
      | (client, err) =>
        let w :=
          w.call (.NewRegistryWithAccessProvider host ns opts.Configs (loginOpts host opts))
        match err with
        | some e => .ret (none, some e) w
        | none =>
          match NewRegistry env opts w with
          | .panic w => .panic w
          | .ret (resolver, err) w =>
            match err with
            | some e => .ret (none, some e) w
            | none =>
              match env.FromRemotesRegistry targetRef client resolver with
              | (registry, err) =>
                let w := w.call (.FromRemotesRegistry targetRef)
                match err with
                | some e => .ret (none, some e) w
                | none => .ret (registry, none) w

/-- Lines 94-107. -/
def NewRegistryWithDiscover (env : Collaborators Cli Res LoginCli Tgt) (targetRef : String)
    (opts : RegistryOptions) (w : World) : Run (Option (Registry Res) × Option GoError) :=
  match NewRegistry env opts w with
  | .panic w => .panic w
  | .ret (registry, err) w =>
    match err with
    | some e => .ret (none, some e) w
    | none =>
      match registry with
      | none => .panic w
      | some registry =>
        match env.WithDiscover targetRef registry.Resolver with
        | (resolver, err) =>
          let w := w.call (.WithDiscover targetRef)
          match err with
          | some e => .ret (none, some e) w
          | none => .ret (some { registry with Resolver := resolver }, none) w

/-! ## A sample set of collaborators, to evaluate the definitions on -/

/-- Resolver values of the sample collaborators. -/
inductive SampleResolver where
  | docker (opts : ResolverOptions)
  | store (configs : List String) (client : ClientPtr) (plainHTTP : Bool)
  | discovered (targetRef : String)
deriving DecidableEq, Repr

/-- Sample collaborators. The empty reference does not parse; the login client cannot be built
for host `down.example.com`; a config list that holds `/bad.json` does not load, and
`NewClient` then returns a nil client with the error; a client loaded from a list that holds
`/noresolver.json` cannot derive a resolver; discovery fails for
`unreachable.example.com/ns/repo:tag`; target composition fails for `nocompose.example.com`. -/
def sample : Collaborators (List String) SampleResolver String String where
  ReferenceSpec := fun targetRef =>
    if targetRef = "" then ("", "", "", "", some ⟨"invalid reference"⟩)
    else ("", targetRef, "ns/repo", "tag", none)
  NewRegistryWithAccessProvider := fun host _ns _configs _loginOpts =>
    if host = "down.example.com" then (none, some ⟨"login failed"⟩)
    else (some ("login@" ++ host), none)
  NewClient := fun configs =>
    if "/bad.json" ∈ configs then (none, some ⟨"invalid config"⟩) else (some configs, none)
  Resolver := fun cli client plainHTTP =>
    if "/noresolver.json" ∈ cli then (none, some ⟨"no resolver"⟩)
    else (some (.store cli client plainHTTP), none)
  NewResolver := .docker
  WithDiscover := fun targetRef _base =>
    if targetRef = "unreachable.example.com/ns/repo:tag" then (none, some ⟨"network error"⟩)
    else (some (.discovered targetRef), none)
  FromRemotesRegistry := fun targetRef _client _resolver =>
    if targetRef = "nocompose.example.com" then (none, some ⟨"compose failed"⟩)
    else (some ("target@" ++ targetRef), none)

/-- Options with no credentials and the given config paths. -/
def anonymous (configs : List String) : RegistryOptions :=
  { Configs := configs, Username := "", Password := "", Insecure := false, PlainHTTP := false,
    UserAgent := "" }

/-! ## Theorems -/

/-! ### The four paths of `newResolver` -/

/-- Path of lines 125-130: a username or a password is given. -/
theorem newResolver_credentials (env : Collaborators Cli Res LoginCli Tgt)
    (username password : String) (insecure plainHTTP : Bool) (configs : List String)
    (w : World) (h : username ≠ "" ∨ password ≠ "") :
    newResolver env username password insecure plainHTTP configs w =
      .ret (some (env.NewResolver { PlainHTTP := plainHTTP, Client := some .DefaultClient,
                                    Credentials := some (.closure username password) }))
        ((w.setTransport insecure).call
          (.NewResolver { PlainHTTP := plainHTTP, Client := some .DefaultClient,
                          Credentials := some (.closure username password) })) := by
  unfold newResolver
  simp only [h, if_true]

/-- Path of lines 131-135 with a nil client: the method call on it panics. -/
theorem newResolver_nil_client (env : Collaborators Cli Res LoginCli Tgt)
    (insecure plainHTTP : Bool) (configs : List String) (w : World) (err : Option GoError)
    (hcli : env.NewClient configs = (none, err)) :
    newResolver env "" "" insecure plainHTTP configs w =
      .panic (((w.setTransport insecure).call (.NewClient configs)).warnAuth err) := by
  unfold newResolver
  simp [hcli]

/-- Path of lines 136-139: the client gives no resolver. -/
theorem newResolver_resolver_error (env : Collaborators Cli Res LoginCli Tgt)
    (insecure plainHTTP : Bool) (configs : List String) (w : World) (cli : Cli)
    (err : Option GoError) (r : Option Res) (e : GoError)
    (hcli : env.NewClient configs = (some cli, err))
    (hres : env.Resolver cli .DefaultClient plainHTTP = (r, some e)) :
    newResolver env "" "" insecure plainHTTP configs w =
      .ret (some (env.NewResolver { PlainHTTP := plainHTTP, Client := some .DefaultClient,
                                    Credentials := none }))
        ((((((w.setTransport insecure).call (.NewClient configs)).warnAuth err).call
            (.Resolver .DefaultClient plainHTTP)).warn
            ("WARNING: Error loading resolver: " ++ e.Error ++ "\n")).call
          (.NewResolver { PlainHTTP := plainHTTP, Client := some .DefaultClient,
                          Credentials := none })) := by
  unfold newResolver
  simp [hcli, hres]

/-- Path of line 140 with the resolver of the client. -/
theorem newResolver_resolver_ok (env : Collaborators Cli Res LoginCli Tgt)
    (insecure plainHTTP : Bool) (configs : List String) (w : World) (cli : Cli)
    (err : Option GoError) (r : Option Res)
    (hcli : env.NewClient configs = (some cli, err))
    (hres : env.Resolver cli .DefaultClient plainHTTP = (r, none)) :
    newResolver env "" "" insecure plainHTTP configs w =
      .ret r ((((w.setTransport insecure).call (.NewClient configs)).warnAuth err).call
        (.Resolver .DefaultClient plainHTTP)) := by
  unfold newResolver
  simp [hcli, hres]

/-- No username and no password: both strings are empty. -/
theorem empty_of_not_credentials {username password : String}
    (h : ¬ (username ≠ "" ∨ password ≠ "")) : username = "" ∧ password = "" := by
  constructor
  · by_contra hu
    exact h (Or.inl hu)
  · by_contra hp
    exact h (Or.inr hp)

@[simp]
theorem World.setTransport_stderr (insecure : Bool) (w : World) :
    (w.setTransport insecure).stderr = w.stderr := by
  cases insecure <;> rfl

@[simp]
theorem World.setTransport_calls (insecure : Bool) (w : World) :
    (w.setTransport insecure).calls = w.calls := by
  cases insecure <;> rfl

@[simp]
theorem World.setTransport_true (w : World) :
    (w.setTransport true).DefaultClient =
      { Transport := some { TLSClientConfig := some { InsecureSkipVerify := true } } } := rfl

@[simp]
theorem World.setTransport_false (w : World) : w.setTransport false = w := rfl

@[simp]
theorem World.call_DefaultClient (w : World) (c : Call) :
    (w.call c).DefaultClient = w.DefaultClient := rfl

@[simp]
theorem World.call_stderr (w : World) (c : Call) : (w.call c).stderr = w.stderr := rfl

@[simp]
theorem World.call_calls (w : World) (c : Call) : (w.call c).calls = w.calls ++ [c] :=
  rfl

@[simp]
theorem World.warn_DefaultClient (w : World) (s : String) :
    (w.warn s).DefaultClient = w.DefaultClient := rfl

@[simp]
theorem World.warn_stderr (w : World) (s : String) :
    (w.warn s).stderr = w.stderr ++ [s] := rfl

@[simp]
theorem World.warn_calls (w : World) (s : String) : (w.warn s).calls = w.calls := rfl

@[simp]
theorem World.warnAuth_DefaultClient (err : Option GoError) (w : World) :
    (w.warnAuth err).DefaultClient = w.DefaultClient := by
  cases err <;> rfl

@[simp]
theorem World.warnAuth_calls (err : Option GoError) (w : World) :
    (w.warnAuth err).calls = w.calls := by
  cases err <;> rfl

/-- The shared default client after a run of `newResolver` is the one `setTransport` left:
no later step of the function touches it. -/
theorem newResolver_world_DefaultClient (env : Collaborators Cli Res LoginCli Tgt)
    (username password : String) (insecure plainHTTP : Bool) (configs : List String)
    (w : World) :
    (newResolver env username password insecure plainHTTP configs w).world.DefaultClient =
      (w.setTransport insecure).DefaultClient := by
  by_cases h : username ≠ "" ∨ password ≠ ""
  · rw [newResolver_credentials env username password insecure plainHTTP configs w h]
    simp [Run.world]
  · obtain ⟨hu, hp⟩ := empty_of_not_credentials h
    subst hu
    subst hp
    rcases hcli : env.NewClient configs with ⟨cli, err⟩
    cases cli with
    | none =>
      rw [newResolver_nil_client env insecure plainHTTP configs w err hcli]
      simp [Run.world]
    | some c =>
      rcases hres : env.Resolver c .DefaultClient plainHTTP with ⟨r, err2⟩
      cases err2 with
      | none =>
        rw [newResolver_resolver_ok env insecure plainHTTP configs w c err r hcli hres]
        simp [Run.world]
      | some e =>
        rw [newResolver_resolver_error env insecure plainHTTP configs w c err r e hcli hres]
        simp [Run.world]

/-- C1. With a username or a password given, `newResolver` returns the resolver that
`docker.NewResolver` builds from options whose credentials function returns
`(username, password, nil)` for every host name, whatever the insecure flag, the plainHTTP
flag and the config paths are; nothing is written to stderr, and the only call made is that
`docker.NewResolver` call: the log holds no call of `auth.NewClient` that was not there
before. -/
theorem newResolver_explicit_credentials (env : Collaborators Cli Res LoginCli Tgt)
    (username password : String) (insecure plainHTTP : Bool) (configs : List String)
    (w : World) (h : username ≠ "" ∨ password ≠ "") :
    ∃ (f : CredentialsFunc) (w1 : World),
      newResolver env username password insecure plainHTTP configs w =
        .ret (some (env.NewResolver
          { PlainHTTP := plainHTTP, Client := some .DefaultClient, Credentials := some f })) w1 ∧
      (∀ hostName : String, f.call hostName = (username, password, none)) ∧
      w1.stderr = w.stderr ∧
      w1.calls = w.calls ++ [Call.NewResolver
          { PlainHTTP := plainHTTP, Client := some .DefaultClient, Credentials := some f }] ∧
      (∀ c ∈ w1.calls, c.isNewClient = true → c ∈ w.calls) := by
  refine ⟨.closure username password, _,
    newResolver_credentials env username password insecure plainHTTP configs w h, ?_, ?_, ?_, ?_⟩
  · intro hostName
    rfl
  · simp
  · simp
  · intro c hc hnew
    simp only [World.call_calls, World.setTransport_calls, List.mem_append,
      List.mem_singleton] at hc
    rcases hc with hc | hc
    · exact hc
    · subst hc
      simp [Call.isNewClient] at hnew

/-- The scenario of the specification: username `u`, password `p`, config path
`/nonexistent`. -/
theorem newResolver_explicit_credentials_witness :
    ("u" ≠ "" ∨ "p" ≠ "") ∧
    ∃ (f : CredentialsFunc) (w1 : World),
      newResolver sample "u" "p" false false ["/nonexistent"] World.init =
        .ret (some (sample.NewResolver
          { PlainHTTP := false, Client := some .DefaultClient, Credentials := some f })) w1 ∧
      (∀ hostName : String, f.call hostName = ("u", "p", none)) ∧
      w1.stderr = World.init.stderr ∧
      w1.calls = World.init.calls ++ [Call.NewResolver
          { PlainHTTP := false, Client := some .DefaultClient, Credentials := some f }] ∧
      (∀ c ∈ w1.calls, c.isNewClient = true → c ∈ World.init.calls) :=
  ⟨by decide,
   newResolver_explicit_credentials sample "u" "p" false false ["/nonexistent"] World.init
     (by decide)⟩

/-- Whenever `newResolver` returns, `NewRegistry` returns a registry holding that resolver,
and a nil error. -/
theorem NewRegistry_of_ret (env : Collaborators Cli Res LoginCli Tgt) (opts : RegistryOptions)
    (w w1 : World) (r : Option Res)
    (h : newResolver env opts.Username opts.Password opts.Insecure opts.PlainHTTP opts.Configs w
      = .ret r w1) :
    NewRegistry env opts w = .ret (some { Resolver := r }, none) w1 := by
  unfold NewRegistry
  rw [h]

/-- What `NewRegistry` returns is a registry with a nil error, holding what `newResolver`
returned. -/
theorem NewRegistry_ret_inv (env : Collaborators Cli Res LoginCli Tgt) (opts : RegistryOptions)
    (w w1 : World) (v : Option (Registry Res) × Option GoError)
    (h : NewRegistry env opts w = .ret v w1) :
    ∃ r, v = (some { Resolver := r }, none) ∧
      newResolver env opts.Username opts.Password opts.Insecure opts.PlainHTTP opts.Configs w
        = .ret r w1 := by
  unfold NewRegistry at h
  cases hr : newResolver env opts.Username opts.Password opts.Insecure opts.PlainHTTP
      opts.Configs w with
  | panic w2 => rw [hr] at h; cases h
  | ret r w2 =>
    rw [hr] at h
    simp only [Run.ret.injEq] at h
    exact ⟨r, h.1.symm, by rw [h.2]⟩

/-- C2. Evaluation at the failing input: no username, no password, and a config path for
which `auth.NewClient` returns a nil client with an error. `newResolver` writes the one
warning and then panics at `cli.Resolver`; it returns no resolver. -/
theorem newResolver_NewClient_failure_panics :
    newResolver sample "" "" false false ["/bad.json"] World.init =
      .panic
        { DefaultClient := { Transport := none },
          stderr := ["WARNING: Error loading auth file: invalid config\n"],
          calls := [Call.NewClient ["/bad.json"]] } := by
  decide

/-- C3. Evaluation at the failing input: options without credentials whose config path makes
`auth.NewClient` fail. `NewRegistry` panics; it returns neither a registry nor an error. -/
theorem NewRegistry_NewClient_failure_panics :
    NewRegistry sample (anonymous ["/bad.json"]) World.init =
      .panic
        { DefaultClient := { Transport := none },
          stderr := ["WARNING: Error loading auth file: invalid config\n"],
          calls := [Call.NewClient ["/bad.json"]] } := by
  decide

/-- C4. If `NewRegistry(opts)` returned the base registry and `WithDiscover`, applied to
`targetRef` and the base resolver, returns the error `e`, then `NewRegistryWithDiscover`
returns a nil registry and the error `e`. -/
theorem NewRegistryWithDiscover_discover_error (env : Collaborators Cli Res LoginCli Tgt)
    (targetRef : String) (opts : RegistryOptions) (w w1 : World) (reg : Registry Res)
    (r : Option Res) (e : GoError)
    (hbase : NewRegistry env opts w = .ret (some reg, none) w1)
    (hdisc : env.WithDiscover targetRef reg.Resolver = (r, some e)) :
    NewRegistryWithDiscover env targetRef opts w =
      .ret (none, some e) (w1.call (.WithDiscover targetRef)) := by
  unfold NewRegistryWithDiscover
  simp [hbase, hdisc]

/-- The scenario of the specification: the discovery probe fails with a network error. -/
theorem NewRegistryWithDiscover_discover_error_witness :
    NewRegistryWithDiscover sample "unreachable.example.com/ns/repo:tag"
        (anonymous ["/nonexistent"]) World.init =
      .ret (none, some ⟨"network error"⟩)
        ({ DefaultClient := { Transport := none }, stderr := [],
           calls := [Call.NewClient ["/nonexistent"], Call.Resolver .DefaultClient false]
          : World }.call (.WithDiscover "unreachable.example.com/ns/repo:tag")) :=
  NewRegistryWithDiscover_discover_error sample "unreachable.example.com/ns/repo:tag"
    (anonymous ["/nonexistent"]) World.init _
    { Resolver := some (.store ["/nonexistent"] .DefaultClient false) } none ⟨"network error"⟩
    (by decide) (by decide)

/-- C6. If `NewRegistry(opts)` returned the base registry and `WithDiscover`, applied to
`targetRef` and the base resolver, returns the resolver `r` with a nil error, then
`NewRegistryWithDiscover` returns a nil error and a registry whose resolver is `r`; the base
resolver is the one `newResolver` built from the fields of `opts`. -/
theorem NewRegistryWithDiscover_discover_ok (env : Collaborators Cli Res LoginCli Tgt)
    (targetRef : String) (opts : RegistryOptions) (w w1 : World) (reg : Registry Res)
    (r : Option Res)
    (hbase : NewRegistry env opts w = .ret (some reg, none) w1)
    (hdisc : env.WithDiscover targetRef reg.Resolver = (r, none)) :
    NewRegistryWithDiscover env targetRef opts w =
      .ret (some { Resolver := r }, none) (w1.call (.WithDiscover targetRef)) ∧
    newResolver env opts.Username opts.Password opts.Insecure opts.PlainHTTP opts.Configs w =
      .ret reg.Resolver w1 := by
  constructor
  · unfold NewRegistryWithDiscover
    simp [hbase, hdisc]
  · obtain ⟨r0, hv, hr⟩ := NewRegistry_ret_inv env opts w w1 _ hbase
    simp only [Prod.mk.injEq, Option.some.injEq, and_true] at hv
    rw [hv]
    exact hr

/-- Discovery succeeds on top of a resolver built from explicit credentials. -/
theorem NewRegistryWithDiscover_discover_ok_witness :
    NewRegistryWithDiscover sample "registry.example.com/ns/repo:tag"
        { anonymous [] with Username := "u", Password := "p" } World.init =
      .ret (some { Resolver := some (.discovered "registry.example.com/ns/repo:tag") }, none)
        ({ DefaultClient := { Transport := none }, stderr := [],
           calls := [Call.NewResolver { PlainHTTP := false, Client := some .DefaultClient,
                                        Credentials := some (.closure "u" "p") }]
          : World }.call (.WithDiscover "registry.example.com/ns/repo:tag")) ∧
    newResolver sample "u" "p" false false [] World.init =
      .ret (some (.docker { PlainHTTP := false, Client := some .DefaultClient,
                            Credentials := some (.closure "u" "p") }))
        { DefaultClient := { Transport := none }, stderr := [],
          calls := [Call.NewResolver { PlainHTTP := false, Client := some .DefaultClient,
                                       Credentials := some (.closure "u" "p") }] } :=
  NewRegistryWithDiscover_discover_ok sample "registry.example.com/ns/repo:tag"
    { anonymous [] with Username := "u", Password := "p" } World.init _
    { Resolver := some (.docker { PlainHTTP := false, Client := some .DefaultClient,
                                  Credentials := some (.closure "u" "p") }) }
    (some (.discovered "registry.example.com/ns/repo:tag"))
    (by decide) (by decide)

/-- C8. With no username and no password, if `auth.NewClient(configs...)` returns a client
with a nil error and that client, called with the default HTTP client and the plainHTTP flag
of the caller, returns the resolver `r` with a nil error, then `newResolver` returns `r`,
writes nothing to stderr and makes these two calls only. -/
theorem newResolver_config_store (env : Collaborators Cli Res LoginCli Tgt)
    (insecure plainHTTP : Bool) (configs : List String) (w : World) (cli : Cli)
    (r : Option Res)
    (hcli : env.NewClient configs = (some cli, none))
    (hres : env.Resolver cli .DefaultClient plainHTTP = (r, none)) :
    ∃ w1 : World,
      newResolver env "" "" insecure plainHTTP configs w = .ret r w1 ∧
      w1.stderr = w.stderr ∧
      w1.calls = w.calls ++ [Call.NewClient configs, Call.Resolver .DefaultClient plainHTTP] := by
  refine ⟨_, newResolver_resolver_ok env insecure plainHTTP configs w cli none r hcli hres,
    ?_, ?_⟩
  · simp [World.warnAuth]
  · simp

/-- A config list that loads, over plain HTTP. -/
theorem newResolver_config_store_witness :
    ∃ w1 : World,
      newResolver sample "" "" false true ["/home/u/config.json"] World.init =
        .ret (some (.store ["/home/u/config.json"] .DefaultClient true)) w1 ∧
      w1.stderr = World.init.stderr ∧
      w1.calls = World.init.calls ++
        [Call.NewClient ["/home/u/config.json"], Call.Resolver .DefaultClient true] :=
  newResolver_config_store sample false true ["/home/u/config.json"] World.init
    ["/home/u/config.json"] (some (.store ["/home/u/config.json"] .DefaultClient true))
    (by decide) (by decide)

/-- C10. With no username and no password, if `auth.NewClient(configs...)` returned a client
and that client returns the error `e` instead of a resolver, then `newResolver` writes the
warning for `e` to stderr (after the warning of `auth.NewClient`, if it reported an error
too) and returns the resolver that `docker.NewResolver` builds from options holding
the default HTTP client, the plainHTTP flag of the caller and no credentials function. -/
theorem newResolver_resolver_failure (env : Collaborators Cli Res LoginCli Tgt)
    (insecure plainHTTP : Bool) (configs : List String) (w : World) (cli : Cli)
    (err : Option GoError) (r : Option Res) (e : GoError)
    (hcli : env.NewClient configs = (some cli, err))
    (hres : env.Resolver cli .DefaultClient plainHTTP = (r, some e)) :
    ∃ w1 : World,
      newResolver env "" "" insecure plainHTTP configs w =
        .ret (some (env.NewResolver
          { PlainHTTP := plainHTTP, Client := some .DefaultClient, Credentials := none })) w1 ∧
      w1.stderr = (w.warnAuth err).stderr ++
        ["WARNING: Error loading resolver: " ++ e.Error ++ "\n"] ∧
      w1.calls = w.calls ++ [Call.NewClient configs, Call.Resolver .DefaultClient plainHTTP,
        Call.NewResolver
          { PlainHTTP := plainHTTP, Client := some .DefaultClient, Credentials := none }] := by
  refine ⟨_, newResolver_resolver_error env insecure plainHTTP configs w cli err r e hcli hres,
    ?_, ?_⟩
  · cases err <;> simp [World.warnAuth]
  · simp

/-- A config list that loads but whose client derives no resolver. -/
theorem newResolver_resolver_failure_witness :
    ∃ w1 : World,
      newResolver sample "" "" false true ["/noresolver.json"] World.init =
        .ret (some (sample.NewResolver
          { PlainHTTP := true, Client := some .DefaultClient, Credentials := none })) w1 ∧
      w1.stderr = (World.init.warnAuth none).stderr ++
        ["WARNING: Error loading resolver: " ++ (GoError.mk "no resolver").Error ++ "\n"] ∧
      w1.calls = World.init.calls ++
        [Call.NewClient ["/noresolver.json"], Call.Resolver .DefaultClient true,
         Call.NewResolver
          { PlainHTTP := true, Client := some .DefaultClient, Credentials := none }] :=
  newResolver_resolver_failure sample false true ["/noresolver.json"] World.init
    ["/noresolver.json"] none none ⟨"no resolver"⟩ (by decide) (by decide)

/-- C5. Evaluation at the failing input: in the world that a call with `insecure = true`
leaves, a call with `insecure = false` returns a resolver bound to the default client, and
that client skips TLS verification. -/
theorem newResolver_secure_after_insecure :
    newResolver sample "u" "p" false false []
        (newResolver sample "u" "p" true false [] World.init).world =
      .ret (some (.docker { PlainHTTP := false, Client := some .DefaultClient,
                            Credentials := some (.closure "u" "p") }))
        { DefaultClient :=
            { Transport := some { TLSClientConfig := some { InsecureSkipVerify := true } } },
          stderr := [],
          calls := [Call.NewResolver { PlainHTTP := false, Client := some .DefaultClient,
                                       Credentials := some (.closure "u" "p") },
                    Call.NewResolver { PlainHTTP := false, Client := some .DefaultClient,
                                       Credentials := some (.closure "u" "p") }] } ∧
    ((newResolver sample "u" "p" false false []
        (newResolver sample "u" "p" true false [] World.init).world).world.deref
      .DefaultClient).tlsVerifyDisabled = true := by
  decide

/-- C9. From every world: a call of `newResolver` with `insecure = true` assigns the
skip-verify transport to the shared default client; the client handed to any resolver
constructor during an earlier call with `insecure = false` therefore skips TLS verification
once the later call has run; and a call with `insecure = false` leaves the shared default
client as it was. -/
theorem newResolver_shared_default_client (env : Collaborators Cli Res LoginCli Tgt)
    (w : World) :
    (∀ (u p : String) (ph : Bool) (cfg : List String),
      (newResolver env u p true ph cfg w).world.DefaultClient =
        { Transport := some { TLSClientConfig := some { InsecureSkipVerify := true } } }) ∧
    (∀ (u1 p1 : String) (ph1 : Bool) (cfg1 : List String) (u2 p2 : String) (ph2 : Bool)
        (cfg2 : List String) (c : Call) (ptr : ClientPtr),
      c ∈ (newResolver env u1 p1 false ph1 cfg1 w).world.calls → c.client = some ptr →
      ((newResolver env u2 p2 true ph2 cfg2
          (newResolver env u1 p1 false ph1 cfg1 w).world).world.deref ptr).tlsVerifyDisabled
        = true) ∧
    (∀ (u p : String) (ph : Bool) (cfg : List String),
      (newResolver env u p false ph cfg w).world.DefaultClient = w.DefaultClient) := by
  refine ⟨?_, ?_, ?_⟩
  · intro u p ph cfg
    rw [newResolver_world_DefaultClient]
    rfl
  · intro u1 p1 ph1 cfg1 u2 p2 ph2 cfg2 c ptr _ _
    cases ptr
    simp only [World.deref]
    rw [newResolver_world_DefaultClient]
    rfl
  · intro u p ph cfg
    rw [newResolver_world_DefaultClient]
    rfl

/-- A resolver built with `insecure = false` in the initial world holds the default client,
which verifies certificates then, and skips verification after a later call with
`insecure = true`. -/
theorem newResolver_shared_default_client_witness :
    Call.NewResolver { PlainHTTP := false, Client := some .DefaultClient,
                       Credentials := some (.closure "u" "p") } ∈
      (newResolver sample "u" "p" false false [] World.init).world.calls ∧
    ((newResolver sample "u" "p" false false [] World.init).world.deref
      .DefaultClient).tlsVerifyDisabled = false ∧
    ((newResolver sample "v" "q" true false []
        (newResolver sample "u" "p" false false [] World.init).world).world.deref
      .DefaultClient).tlsVerifyDisabled = true :=
  ⟨by decide, by decide,
   (newResolver_shared_default_client sample World.init).2.1 "u" "p" false [] "v" "q" false []
     (Call.NewResolver { PlainHTTP := false, Client := some .DefaultClient,
                         Credentials := some (.closure "u" "p") })
     .DefaultClient (by decide) (by decide)⟩

/-- C7. `NewRegistryWithDiscover1` returns `(nil, e)` when reference parsing fails with `e`,
having made no other call; when parsing succeeds and login-client construction fails with
`e`, having made these two calls only; and when both succeed, the backup registry is built
and Target composition fails with `e`. It returns a non-nil Target `t` with a nil error
exactly when parsing and login-client construction succeed, the backup registry is built,
and Target composition returns `t` with a nil error. -/
theorem NewRegistryWithDiscover1_first_failure (env : Collaborators Cli Res LoginCli Tgt)
    (targetRef : String) (opts : RegistryOptions) (w : World) :
    (∀ (sch host ns rest : String) (e : GoError),
      env.ReferenceSpec targetRef = (sch, host, ns, rest, some e) →
      NewRegistryWithDiscover1 env targetRef opts w =
        .ret (none, some e) (w.call (.ReferenceSpec targetRef))) ∧
    (∀ (sch host ns rest : String) (client : Option LoginCli) (e : GoError),
      env.ReferenceSpec targetRef = (sch, host, ns, rest, none) →
      env.NewRegistryWithAccessProvider host ns opts.Configs (loginOpts host opts) =
        (client, some e) →
      NewRegistryWithDiscover1 env targetRef opts w =
        .ret (none, some e) ((w.call (.ReferenceSpec targetRef)).call
          (.NewRegistryWithAccessProvider host ns opts.Configs (loginOpts host opts)))) ∧
    (∀ (sch host ns rest : String) (client : Option LoginCli)
        (resolver : Option (Registry Res)) (w1 : World) (tgt : Option Tgt) (e : GoError),
      env.ReferenceSpec targetRef = (sch, host, ns, rest, none) →
      env.NewRegistryWithAccessProvider host ns opts.Configs (loginOpts host opts) =
        (client, none) →
      NewRegistry env opts ((w.call (.ReferenceSpec targetRef)).call
          (.NewRegistryWithAccessProvider host ns opts.Configs (loginOpts host opts))) =
        .ret (resolver, none) w1 →
      env.FromRemotesRegistry targetRef client resolver = (tgt, some e) →
      NewRegistryWithDiscover1 env targetRef opts w =
        .ret (none, some e) (w1.call (.FromRemotesRegistry targetRef))) ∧
    (∀ (t : Tgt) (w2 : World),
      NewRegistryWithDiscover1 env targetRef opts w = .ret (some t, none) w2 ↔
      ∃ (sch host ns rest : String) (client : Option LoginCli)
          (resolver : Option (Registry Res)) (w1 : World),
        env.ReferenceSpec targetRef = (sch, host, ns, rest, none) ∧
        env.NewRegistryWithAccessProvider host ns opts.Configs (loginOpts host opts) =
          (client, none) ∧
        NewRegistry env opts ((w.call (.ReferenceSpec targetRef)).call
            (.NewRegistryWithAccessProvider host ns opts.Configs (loginOpts host opts))) =
          .ret (resolver, none) w1 ∧
        env.FromRemotesRegistry targetRef client resolver = (some t, none) ∧
        w2 = w1.call (.FromRemotesRegistry targetRef)) := by
  refine ⟨?_, ?_, ?_, ?_⟩
  · intro sch host ns rest e hp
    unfold NewRegistryWithDiscover1
    simp [hp]
  · intro sch host ns rest client e hp hl
    unfold NewRegistryWithDiscover1
    simp [hp, hl]
  · intro sch host ns rest client resolver w1 tgt e hp hl hr hc
    unfold NewRegistryWithDiscover1
    simp [hp, hl, hr, hc]
  · intro t w2
    constructor
    · intro h
      obtain ⟨sch, host, ns, rest, perr, hp⟩ : ∃ sch host ns rest perr,
          env.ReferenceSpec targetRef = (sch, host, ns, rest, perr) := ⟨_, _, _, _, _, rfl⟩
      obtain ⟨client, lerr, hl⟩ : ∃ client lerr,
          env.NewRegistryWithAccessProvider host ns opts.Configs (loginOpts host opts) =
            (client, lerr) := ⟨_, _, rfl⟩
      cases perr with
      | some e => simp [NewRegistryWithDiscover1, hp] at h
      | none =>
        cases lerr with
        | some e => simp [NewRegistryWithDiscover1, hp, hl] at h
        | none =>
          cases hr : NewRegistry env opts ((w.call (.ReferenceSpec targetRef)).call
            (.NewRegistryWithAccessProvider host ns opts.Configs (loginOpts host opts))) with
          | panic w3 => simp [NewRegistryWithDiscover1, hp, hl, hr] at h
          | ret v w1 =>
            obtain ⟨resolver, rerr⟩ := v
            cases rerr with
            | some e => simp [NewRegistryWithDiscover1, hp, hl, hr] at h
            | none =>
              obtain ⟨tgt, cerr, hc⟩ : ∃ tgt cerr,
                  env.FromRemotesRegistry targetRef client resolver = (tgt, cerr) :=
                ⟨_, _, rfl⟩
              cases cerr with
              | some e => simp [NewRegistryWithDiscover1, hp, hl, hr, hc] at h
              | none =>
                simp only [NewRegistryWithDiscover1, hp, hl, hr, hc, Run.ret.injEq,
                  Prod.mk.injEq, and_true] at h
                refine ⟨sch, host, ns, rest, client, resolver, w1, hp, hl, hr, ?_, h.2.symm⟩
                rw [hc, h.1]
    · rintro ⟨sch, host, ns, rest, client, resolver, w1, hp, hl, hr, hc, hw⟩
      unfold NewRegistryWithDiscover1
      simp [hp, hl, hr, hc, hw]

/-- The four cases on the sample collaborators: a reference that does not parse, a host whose
login client cannot be built, a target that cannot be composed, and a run where every step
succeeds. -/
theorem NewRegistryWithDiscover1_first_failure_witness :
    NewRegistryWithDiscover1 sample "" (anonymous []) World.init =
      .ret (none, some ⟨"invalid reference"⟩) (World.init.call (.ReferenceSpec "")) ∧
    NewRegistryWithDiscover1 sample "down.example.com" (anonymous []) World.init =
      .ret (none, some ⟨"login failed"⟩)
        ((World.init.call (.ReferenceSpec "down.example.com")).call
          (.NewRegistryWithAccessProvider "down.example.com" "ns/repo" []
            (loginOpts "down.example.com" (anonymous [])))) ∧
    NewRegistryWithDiscover1 sample "nocompose.example.com" (anonymous []) World.init =
      .ret (none, some ⟨"compose failed"⟩)
        (((((World.init.call (.ReferenceSpec "nocompose.example.com")).call
          (.NewRegistryWithAccessProvider "nocompose.example.com" "ns/repo" []
            (loginOpts "nocompose.example.com" (anonymous [])))).call (.NewClient [])).call
          (.Resolver .DefaultClient false)).call
          (.FromRemotesRegistry "nocompose.example.com")) ∧
    NewRegistryWithDiscover1 sample "registry.example.com" (anonymous []) World.init =
      .ret (some "target@registry.example.com", none)
        (((((World.init.call (.ReferenceSpec "registry.example.com")).call
          (.NewRegistryWithAccessProvider "registry.example.com" "ns/repo" []
            (loginOpts "registry.example.com" (anonymous [])))).call (.NewClient [])).call
          (.Resolver .DefaultClient false)).call
          (.FromRemotesRegistry "registry.example.com")) :=
  ⟨(NewRegistryWithDiscover1_first_failure sample "" (anonymous []) World.init).1
      "" "" "" "" ⟨"invalid reference"⟩ (by decide),
   (NewRegistryWithDiscover1_first_failure sample "down.example.com" (anonymous [])
      World.init).2.1 "" "down.example.com" "ns/repo" "tag" none ⟨"login failed"⟩
      (by decide) (by decide),
   (NewRegistryWithDiscover1_first_failure sample "nocompose.example.com" (anonymous [])
      World.init).2.2.1 "" "nocompose.example.com" "ns/repo" "tag"
      (some "login@nocompose.example.com")
      (some { Resolver := some (.store [] .DefaultClient false) }) _ none
      ⟨"compose failed"⟩ (by decide) (by decide) (by decide) (by decide),
   ((NewRegistryWithDiscover1_first_failure sample "registry.example.com" (anonymous [])
      World.init).2.2.2 "target@registry.example.com" _).2
      ⟨"", "registry.example.com", "ns/repo", "tag", some "login@registry.example.com",
        some { Resolver := some (.store [] .DefaultClient false) }, _,
        by decide, by decide, by decide, by decide, rfl⟩⟩

end Content
